import Mathlib

/-!
Shallow embedding of the Travel_agent repository core
(`src/agent/travel_agent.py`, `src/tools/flight_search_tool.py`,
`src/tools/weather_tool.py`, `src/utils/data_loader.py`) and proofs about it.

Python strings are modelled by `String`, Python ints by `ℤ` (or `ℕ` where
the source values are non-negative), Python floats in the weather/rating
logic by `ℚ`, Python `None`-able values by `Option`, and a Python function
that can raise an exception by `Except String`.
-/

namespace TravelAgent

/-! ### Calendar dates

`datetime.strptime(s, "%Y-%m-%d")` parses an ISO calendar date and validates
it (month 1..12, day within the month, 4-digit-range year); subtraction of
two `datetime` values yields the difference of their proleptic Gregorian
ordinals, in days.  `daysFromCivil` is the standard civil-from-days ordinal
computation for the proleptic Gregorian calendar. -/

def isLeapYear (y : ℕ) : Bool :=
  y % 4 == 0 && (y % 100 != 0 || y % 400 == 0)

def daysInMonth (y m : ℕ) : ℕ :=
  if m == 2 then (if isLeapYear y then 29 else 28)
  else if m == 4 || m == 6 || m == 9 || m == 11 then 30
  else 31

/-- Days since 0000-03-01 of a civil date (proleptic Gregorian), valid for
`y ≥ 1`.  Differences of this ordinal equal Python's `(d2 - d1).days`. -/
def daysFromCivil (y m d : ℕ) : ℕ :=
  let y' := if m ≤ 2 then y - 1 else y
  let era := y' / 400
  let yoe := y' - era * 400
  let mp := if 2 < m then m - 3 else m + 9
  let doy := (153 * mp + 2) / 5 + d - 1
  let doe := yoe * 365 + yoe / 4 - yoe / 100 + doy
  era * 146097 + doe

/-- Split a character list at `'-'` separators. -/
def splitDash : List Char → List (List Char)
  | [] => [[]]
  | c :: cs =>
    if c = '-' then [] :: splitDash cs
    else
      match splitDash cs with
      | [] => [[c]]
      | r :: rs => (c :: r) :: rs

/-- Numeric value of a non-empty all-digit character group. -/
def digitsVal? (cs : List Char) : Option ℕ :=
  if cs.isEmpty || !cs.all Char.isDigit then none
  else some (cs.foldl (fun acc c => acc * 10 + (c.toNat - '0'.toNat)) 0)

/-- Model of `datetime.strptime(s, "%Y-%m-%d")`: returns the validated
(year, month, day) triple, or `none` when parsing raises `ValueError`. -/
def parseYMD (s : String) : Option (ℕ × ℕ × ℕ) :=
  match splitDash s.data with
  | [ys, ms, ds] =>
    match digitsVal? ys, digitsVal? ms, digitsVal? ds with
    | some y, some m, some d =>
      if 1 ≤ y ∧ y ≤ 9999 ∧ 1 ≤ m ∧ m ≤ 12 ∧ 1 ≤ d ∧ d ≤ daysInMonth y m
      then some (y, m, d) else none
    | _, _, _ => none
  | _ => none

/-- Ordinal of a parsed date string. -/
def dateOrdinal? (s : String) : Option ℕ :=
  (parseYMD s).map fun p => daysFromCivil p.1 p.2.1 p.2.2

/-! ### Demo-mode trip planning (`HybridTravelAgent._demo_plan_trip`) -/

inductive Status where
  | success
  | error
deriving DecidableEq

/-- The dictionary `plan_trip` returns:
`{"status": ..., "provider": ..., "itinerary"/"message": ...}`. -/
structure PlanResult where
  status : Status
  provider : String
  itinerary : String
deriving DecidableEq

/-- The 5-element activity rotation used by `_demo_plan_trip`. -/
def demoActivities : List String :=
  ["Beach relaxation & water sports",
   "Heritage sites & local culture",
   "Shopping & cuisine exploration",
   "Adventure activities",
   "Scenic tours & photography"]

/-- Computes `days = (end_dt - start_dt).days + 1` as in `_demo_plan_trip`
(also computed, identically, in the AI branch of `plan_trip`). -/
def demoDays? (startS endS : String) : Option ℤ :=
  match dateOrdinal? startS, dateOrdinal? endS with
  | some o1, some o2 => some ((o2 : ℤ) - (o1 : ℤ) + 1)
  | _, _ => none

/-- Computes `total = 4800 + (3200 * days) + (800 * days)` as in `_demo_plan_trip`. -/
def demoTotal (days : ℤ) : ℤ :=
  4800 + 3200 * days + 800 * days

/-- The total stated in the demo itinerary's budget block, as a function of
the two date strings. -/
def demoStatedTotal? (startS endS : String) : Option ℤ :=
  (demoDays? startS endS).map demoTotal

/-- Thousands grouping of a digit-reversed character list
(models Python's `format(n, ',')`). -/
def groupRev : List Char → ℕ → List Char
  | [], _ => []
  | c :: cs, k =>
    (if k ≠ 0 ∧ k % 3 = 0 then [',', c] else [c]) ++ groupRev cs (k + 1)

/-- Python `f"{n:,}"` for an integer. -/
def commaGrouped (n : ℤ) : String :=
  let digits := (toString n.natAbs).data
  let body : List Char := (groupRev digits.reverse 0).reverse
  (if n < 0 then "-" else "") ++ ⟨body⟩

/-- Python `'=' * 60`. -/
def eqLine : String := ⟨List.replicate 60 '='⟩

/-- The `for i in range(days)` loop appending one line per day,
`activities[i % len(activities)]`. -/
def dayLines (days : ℕ) : String :=
  (List.range days).foldl
    (fun acc i => acc ++ "\n   Day " ++ toString (i + 1) ++ ": " ++
      (demoActivities.getD (i % demoActivities.length) ""))
    ""

/-- The itinerary string assembled by `_demo_plan_trip` for a given
source, destination and day count. -/
def demoItinerary (source dest : String) (days : ℤ) : String :=
  "\n🌍 YOUR " ++ toString days ++ "-DAY TRIP TO " ++ dest.toUpper ++ "\n" ++
  eqLine ++ "\n\n✈️  FLIGHT: IndiGo - ₹4,800\n    " ++ source ++ " → " ++ dest ++
  " | 2h 30m\n\n🏨 HOTEL: Sea View Resort - ₹3,200/night\n    " ++
  "Rating: 4.5/5 | Beach access, Pool, WiFi\n\n🌤️  WEATHER: Sunny, 28-32°C throughout trip\n\n📅 ITINERARY:\n" ++
  dayLines days.toNat ++
  "\n\n💰 BUDGET: ₹" ++ commaGrouped (demoTotal days) ++
  "\n    Flight: ₹4,800\n    Hotel: ₹" ++ commaGrouped (3200 * days) ++
  "\n    Food/Activities: ₹" ++ commaGrouped (800 * days) ++
  "\n\n" ++ eqLine ++ "\n"

/-- Model of `HybridTravelAgent._demo_plan_trip(source, dest, start, end, budget)`.
The two `strptime` calls are not guarded by any `try`: a date string that
fails to parse raises `ValueError`, modelled as `Except.error`.  The
`budget` argument is received but never used. -/
def demoPlanTrip (source dest startS endS : String) (budget : Option ℚ) :
    Except String PlanResult :=
  match demoDays? startS endS with
  | none => Except.error "ValueError: time data does not match format %Y-%m-%d"
  | some days =>
    Except.ok { status := Status.success, provider := "demo",
                itinerary := demoItinerary source dest days }

/-- Model of `HybridTravelAgent.plan_trip` when the detected provider is `"demo"`:
it immediately delegates to `_demo_plan_trip`, forwarding `budget` and
dropping `preferences`.  Nothing on this path is wrapped in `try`. -/
def planTripDemo (source dest startS endS : String) (budget : Option ℚ)
    (preferences : Option String) : Except String PlanResult :=
  demoPlanTrip source dest startS endS budget

/-! ### Hotel search (`HybridTravelAgent._hotel_search`) -/

/-- One record of the JSON object `_hotel_search` puts in `"hotels"`. -/
structure Hotel where
  name : String
  rating : ℚ
  price_per_night : ℤ
  amenities : List String
deriving DecidableEq

/-- The JSON object `_hotel_search` returns. -/
structure HotelSearchResult where
  status : String
  hotels : List Hotel
deriving DecidableEq

/-- Model of `HybridTravelAgent._hotel_search(input_str)`: the body never reads
`input_str` (it is not even `json.loads`-ed) and unconditionally returns
the fixed single-hotel success payload. -/
def hotelSearch (inputStr : String) : HotelSearchResult :=
  { status := "success",
    hotels := [{ name := "Sea View Resort", rating := 4.5,
                 price_per_night := 3200, amenities := ["Pool", "WiFi"] }] }

/-- Written from the spec's words, for comparison with `hotelSearch`:
"Filter predicate: rating ≥ min_rating AND price ≤ max_price (both
optional; absent = no constraint)". -/
def specHotelFilter (hotels : List Hotel) (minRating : Option ℚ)
    (maxPrice : Option ℤ) : List Hotel :=
  hotels.filter fun h =>
    (match minRating with | none => true | some r => decide (r ≤ h.rating)) &&
    (match maxPrice with | none => true | some p => decide (h.price_per_night ≤ p))

/-! ### Static dataset loading (`DataLoader.load_json`) -/

/-- JSON values, as far as the loader's shape analysis observes them. -/
inductive Json where
  | arr (elems : List Json)
  | obj (fields : List (String × Json))
  | str (s : String)
  | num (n : ℤ)
  | bool (b : Bool)
  | null

/-- Python `key in data` / `data[key]` on a JSON object. -/
def Json.lookup : List (String × Json) → String → Option Json
  | [], _ => none
  | (k, v) :: rest, key => if k = key then some v else Json.lookup rest key

/-- The `for key in ['flights', 'hotels', 'places', 'data']` probe:
value of the first of those keys present in the object. -/
def firstDataKey (fields : List (String × Json)) : Option Json :=
  match Json.lookup fields "flights" with
  | some v => some v
  | none =>
    match Json.lookup fields "hotels" with
    | some v => some v
    | none =>
      match Json.lookup fields "places" with
      | some v => some v
      | none => Json.lookup fields "data"

/-- The shape-normalization step of `DataLoader.load_json` applied to the
parsed JSON value: a list is returned as is; an object returns the value of
the first key among `flights`/`hotels`/`places`/`data` it contains, and is
otherwise wrapped in a singleton list; any other value yields `[]`. -/
def loadNormalize : Json → Json
  | Json.arr elems => Json.arr elems
  | Json.obj fields =>
    match firstDataKey fields with
    | some v => v
    | none => Json.arr [Json.obj fields]
  | _ => Json.arr []

/-- Discriminator used to state results about `loadNormalize` without a
`DecidableEq` instance for nested `Json`. -/
def Json.isEmptyArr : Json → Bool
  | Json.arr [] => true
  | _ => false

/-! ### The `lru_cache(maxsize=10)` on `DataLoader.load_json`

For a single `DataLoader` instance the cache is keyed by the filename.
Only the key bookkeeping is modelled: `cache` is the key list in
most-recently-used-first order, and `log` records every read that went to
disk, in order. -/

structure CacheState where
  cache : List String
  log : List String
deriving DecidableEq

def initCache : CacheState := { cache := [], log := [] }

/-- One `load_json(filename)` call: on a hit the key moves to the front; on
a miss the file is read from disk (appended to `log`), the key is inserted
at the front, and the least-recently-used key is evicted beyond the
`maxsize=10` capacity. -/
def loadJson (s : CacheState) (f : String) : CacheState :=
  if f ∈ s.cache then
    { cache := f :: s.cache.erase f, log := s.log }
  else
    { cache := (f :: s.cache).take 10, log := s.log ++ [f] }

/-- Model of `DataLoader.clear_cache`, i.e. `load_json.cache_clear()`. -/
def clearCache (s : CacheState) : CacheState := { cache := [], log := s.log }

/-- A sequence of `load_json` calls. -/
def runLoads : CacheState → List String → CacheState
  | s, [] => s
  | s, f :: fs => runLoads (loadJson s f) fs

/-! ### Flight search (`FlightSearchTool`) -/

/-- A flight dataset record.  The records are Python dicts read with
`.get(key, default)`, so every field is optional. -/
structure FlightRecord where
  flight_id : Option String
  airline : Option String
  source : Option String
  destination : Option String
  departure_time : Option String
  arrival_time : Option String
  duration_minutes : Option ℤ
  price : Option ℤ
  available_seats : Option ℤ
deriving DecidableEq

/-- Python `str.lower()` (ASCII range suffices for the city names used). -/
def pyLower (s : String) : String := ⟨s.data.map Char.toLower⟩

/-- Python whitespace for `str.strip()`. -/
def pySpace (c : Char) : Bool :=
  c = ' ' || c = '\t' || c = '\n' || c = '\r' || c = '\x0b' || c = '\x0c'

/-- Python `str.strip()`. -/
def pyStrip (s : String) : String :=
  ⟨((s.data.dropWhile pySpace).reverse.dropWhile pySpace).reverse⟩

/-- Model of `FlightSearchTool._filter_flights`: the query fields are lowercased and
stripped (`source.lower().strip()`), the record fields only lowercased
(`flight.get('source', '').lower()`). -/
def filterFlights (flights : List FlightRecord) (source destination : String) :
    List FlightRecord :=
  let sourceLower := pyStrip (pyLower source)
  let destLower := pyStrip (pyLower destination)
  flights.filter fun f =>
    pyLower (f.source.getD "") == sourceLower &&
    pyLower (f.destination.getD "") == destLower

/-- Written from the spec's words, for comparison with `filterFlights`:
"Matching is exact, case-insensitive, whitespace-trimmed equality on both
city fields", applied to both sides. -/
def specFlightMatch (f : FlightRecord) (source destination : String) : Bool :=
  pyStrip (pyLower (f.source.getD "")) == pyStrip (pyLower source) &&
  pyStrip (pyLower (f.destination.getD "")) == pyStrip (pyLower destination)

/-- Sort key for `sorted(flights, key=lambda x: x.get('price', 999999))`. -/
def priceKey (f : FlightRecord) : ℤ := f.price.getD 999999

/-- Sort key for `sorted(flights, key=lambda x: x.get('duration_minutes', 999))`. -/
def durationKey (f : FlightRecord) : ℤ := f.duration_minutes.getD 999

/-- Insert `x` in front of the first element whose key is `≥ key x`
(the stable insertion step). -/
def insertStable {α : Type} (key : α → ℤ) (x : α) : List α → List α
  | [] => [x]
  | y :: l => if key x ≤ key y then x :: y :: l else y :: insertStable key x l

/-- Stable insertion sort by an integer key.  Python's `sorted` is
guaranteed stable, and every stable sort by the same key computes the same
output list, so this models `sorted(flights, key=...)` exactly. -/
def stableSortBy {α : Type} (key : α → ℤ) : List α → List α
  | [] => []
  | x :: l => insertStable key x (stableSortBy key l)

/-- Model of `FlightSearchTool._sort_flights(flights, sort_by)`. -/
def sortFlights (flights : List FlightRecord) (sortBy : String) :
    List FlightRecord :=
  if sortBy == "duration" then stableSortBy durationKey flights
  else stableSortBy priceKey flights

/-! ### Weather tool (`WeatherTool`) -/

/-- The `forecast_days` query parameter built by `_fetch_weather_data`:
`min(days, 7)`. -/
def forecastDaysParam (days : ℤ) : ℤ := min days 7

/-- Number of per-day entries emitted by the
`for i in range(min(days, len(dates)))` loop in `_format_weather_output`. -/
def formatDayCount (days : ℤ) (nDates : ℕ) : ℕ := (min days (nDates : ℤ)).toNat

/-- The three clothing recommendations of the "Travel Tips" block. -/
inductive Advice where
  | hot
  | cold
  | moderate
deriving DecidableEq

/-- Computes `avg_temp = sum(temp_max[:days]) / days` as in `_format_weather_output`
(note: the divisor is `days`, not the number of summed entries). -/
def avgTemp (tempMax : List ℚ) (days : ℕ) : ℚ :=
  (tempMax.take days).sum / (days : ℚ)

/-- The clothing branch: `if avg_temp > 30 … elif avg_temp < 20 … else …`. -/
def clothingAdvice (tempMax : List ℚ) (days : ℕ) : Advice :=
  if 30 < avgTemp tempMax days then Advice.hot
  else if avgTemp tempMax days < 20 then Advice.cold
  else Advice.moderate

/-- Computes `has_rain = any(p > 5 for p in precipitation[:days])`. -/
def rainGear (precipitation : List ℚ) (days : ℕ) : Bool :=
  (precipitation.take days).any fun p => decide (5 < p)


/-! ### Concrete sample records and the cache invariant -/

/-- The Delhi→Goa IndiGo record from `_get_sample_flights`. -/
def sampleFlight : FlightRecord :=
  { flight_id := some "6E-123", airline := some "IndiGo",
    source := some "Delhi", destination := some "Goa",
    departure_time := some "14:00", arrival_time := some "16:30",
    duration_minutes := some 150, price := some 4800,
    available_seats := some 45 }

/-- A dataset record whose `source` field carries leading whitespace. -/
def spacedFlight : FlightRecord :=
  { flight_id := none, airline := none, source := some " Delhi",
    destination := some "Goa", departure_time := none,
    arrival_time := none, duration_minutes := none, price := none,
    available_seats := none }

/-- Invariant of the LRU key bookkeeping while no eviction has occurred:
the key list has no duplicates, every file was read at most once, and the
set of files read so far is exactly the set of cached keys. -/
def CacheInv (s : CacheState) : Prop :=
  s.cache.Nodup ∧ (∀ f, s.log.count f ≤ 1) ∧ (∀ f, f ∈ s.log ↔ f ∈ s.cache)

/-! ### Helper lemmas -/

lemma insertStable_perm {α : Type} (key : α → ℤ) (x : α) (l : List α) :
    (insertStable key x l).Perm (x :: l) := by
  induction l with
  | nil => simp [insertStable]
  | cons y l ih =>
    simp only [insertStable]
    split
    · exact List.Perm.refl _
    · exact (List.Perm.cons y ih).trans (List.Perm.swap x y l)

lemma mem_insertStable {α : Type} (key : α → ℤ) (x a : α) (l : List α) :
    a ∈ insertStable key x l ↔ a = x ∨ a ∈ l := by
  rw [(insertStable_perm key x l).mem_iff, List.mem_cons]

lemma pairwise_insertStable {α : Type} (key : α → ℤ) (x : α) (l : List α)
    (hl : l.Pairwise (fun a b => key a ≤ key b)) :
    (insertStable key x l).Pairwise (fun a b => key a ≤ key b) := by
  induction l with
  | nil => simp [insertStable]
  | cons y l ih =>
    simp only [insertStable]
    rcases List.pairwise_cons.mp hl with ⟨hy, hl'⟩
    split
    · rename_i hxy
      refine List.pairwise_cons.mpr ⟨?_, hl⟩
      intro b hb
      rcases List.mem_cons.mp hb with rfl | hb
      · exact hxy
      · exact hxy.trans (hy b hb)
    · rename_i hxy
      refine List.pairwise_cons.mpr ⟨?_, ih hl'⟩
      intro b hb
      rcases (mem_insertStable key x b l).mp hb with rfl | hb
      · omega
      · exact hy b hb

lemma perm_stableSortBy {α : Type} (key : α → ℤ) (l : List α) :
    (stableSortBy key l).Perm l := by
  induction l with
  | nil => simp [stableSortBy]
  | cons x l ih =>
    exact (insertStable_perm key x (stableSortBy key l)).trans (List.Perm.cons x ih)

lemma sorted_stableSortBy {α : Type} (key : α → ℤ) (l : List α) :
    (stableSortBy key l).Pairwise (fun a b => key a ≤ key b) := by
  induction l with
  | nil => simp [stableSortBy]
  | cons x l ih => exact pairwise_insertStable key x _ ih

lemma filter_insertStable {α : Type} (key : α → ℤ) (x : α) (l : List α) (k : ℤ) :
    (insertStable key x l).filter (fun a => key a == k) =
      (x :: l).filter (fun a => key a == k) := by
  induction l with
  | nil => rfl
  | cons y l ih =>
    simp only [insertStable]
    split
    · rfl
    · rename_i hxy
      by_cases hx : key x = k <;> by_cases hy : key y = k
      · exfalso; omega
      · simp [List.filter_cons, hx, hy, ih]
      · simp [List.filter_cons, hx, hy, ih]
      · simp [List.filter_cons, hx, hy, ih]

lemma filter_stableSortBy {α : Type} (key : α → ℤ) (l : List α) (k : ℤ) :
    (stableSortBy key l).filter (fun a => key a == k) =
      l.filter (fun a => key a == k) := by
  induction l with
  | nil => rfl
  | cons x l ih =>
    rw [stableSortBy, filter_insertStable]
    simp only [List.filter]
    rw [ih]

lemma append_ne_empty (a b : String) (h : b ≠ "") : a ++ b ≠ "" := by
  intro hab
  apply h
  have hd : (a ++ b).data = a.data ++ b.data := by
    cases a
    cases b
    rfl
  rw [hab] at hd
  have hnil : a.data ++ b.data = ([] : List Char) := by rw [← hd]
  have hb : b.data = [] := (List.append_eq_nil.mp hnil).2
  cases b with
  | mk data => cases hb; rfl

lemma loadJson_inv (s : CacheState) (f : String) (h : CacheInv s)
    (hroom : f ∈ s.cache ∨ s.cache.length ≤ 9) : CacheInv (loadJson s f) := by
  obtain ⟨hnd, hcnt, hmem⟩ := h
  by_cases hf : f ∈ s.cache
  · refine ⟨?_, ?_, ?_⟩
    · simp only [loadJson, hf, if_pos]
      exact List.nodup_cons.mpr
        ⟨fun hc => ((hnd.mem_erase_iff).mp hc).1 rfl, hnd.erase f⟩
    · simpa only [loadJson, hf, if_pos] using hcnt
    · intro g
      simp only [loadJson, hf, if_pos, List.mem_cons, hnd.mem_erase_iff]
      rw [hmem g]
      by_cases hg : g = f
      · subst hg; simp [hf]
      · simp [hg]
  · have hlen : s.cache.length ≤ 9 := hroom.resolve_left hf
    have htake : (f :: s.cache).take 10 = f :: s.cache := by
      apply List.take_of_length_le
      simp
      omega
    refine ⟨?_, ?_, ?_⟩
    · simp only [loadJson, hf, if_neg, not_false_iff, htake]
      exact List.nodup_cons.mpr ⟨hf, hnd⟩
    · intro g
      simp only [loadJson, hf, if_neg, not_false_iff, List.count_append]
      by_cases hg : g = f
      · subst hg
        have h0 : s.log.count g = 0 :=
          List.count_eq_zero.mpr (fun hc => hf ((hmem g).mp hc))
        simp [h0]
      · have : List.count g [f] = 0 := by
          simp [List.count_singleton', hg]
        simp only [this, Nat.add_zero]
        exact hcnt g
    · intro g
      simp only [loadJson, hf, if_neg, not_false_iff, htake, List.mem_append,
        List.mem_cons, List.mem_singleton]
      rw [hmem g]
      tauto

lemma runLoads_inv (fs : List String) :
    ∀ s : CacheState, CacheInv s →
      s.cache.length + (fs.toFinset \ s.cache.toFinset).card ≤ 10 →
      CacheInv (runLoads s fs) := by
  induction fs with
  | nil => intro s h _; exact h
  | cons f rest ih =>
    intro s h hbound
    rw [runLoads]
    by_cases hf : f ∈ s.cache
    · have hstate : loadJson s f = { cache := f :: s.cache.erase f, log := s.log } := by
        simp [loadJson, hf]
      apply ih
      · exact loadJson_inv s f h (Or.inl hf)
      · have hlen : (loadJson s f).cache.length = s.cache.length := by
          rw [hstate]
          simp [List.length_erase_of_mem hf]
          have : 1 ≤ s.cache.length := List.length_pos_of_mem hf
          omega
        have hset : (loadJson s f).cache.toFinset = s.cache.toFinset := by
          rw [hstate]
          ext g
          simp only [List.toFinset_cons, Finset.mem_insert, List.mem_toFinset,
            h.1.mem_erase_iff]
          by_cases hg : g = f
          · subst hg; simp [hf]
          · simp [hg]
        rw [hlen, hset]
        have hsub : rest.toFinset \ s.cache.toFinset ⊆
            (f :: rest).toFinset \ s.cache.toFinset := by
          apply Finset.sdiff_subset_sdiff _ (le_refl _)
          simp [Finset.subset_insert]
        have := Finset.card_le_card hsub
        omega
    · have hnew : f ∈ (f :: rest).toFinset \ s.cache.toFinset := by
        simp [List.mem_toFinset, hf]
      have hpos : 1 ≤ ((f :: rest).toFinset \ s.cache.toFinset).card :=
        Finset.card_pos.mpr ⟨f, hnew⟩
      have hlen9 : s.cache.length ≤ 9 := by omega
      have htake : (f :: s.cache).take 10 = f :: s.cache := by
        apply List.take_of_length_le
        simp
        omega
      have hstate : loadJson s f = { cache := f :: s.cache, log := s.log ++ [f] } := by
        simp [loadJson, hf, htake]
      apply ih
      · exact loadJson_inv s f h (Or.inr hlen9)
      · rw [hstate]
        have hX : (f :: rest).toFinset \ s.cache.toFinset =
            insert f (rest.toFinset \ s.cache.toFinset) := by
          ext g
          simp only [List.toFinset_cons, Finset.mem_sdiff, Finset.mem_insert,
            List.mem_toFinset]
          by_cases hg : g = f
          · subst hg; simp [hf]
          · simp [hg]
        have hY : rest.toFinset \ (insert f s.cache.toFinset) =
            (rest.toFinset \ s.cache.toFinset).erase f := by
          ext g
          simp only [Finset.mem_sdiff, Finset.mem_insert, Finset.mem_erase]
          tauto
        have hcardX : ((f :: rest).toFinset \ s.cache.toFinset).card =
            ((rest.toFinset \ s.cache.toFinset).erase f).card + 1 := by
          rw [hX]
          have hins : insert f (rest.toFinset \ s.cache.toFinset) =
              insert f ((rest.toFinset \ s.cache.toFinset).erase f) := by
            ext g
            simp only [Finset.mem_insert, Finset.mem_erase]
            by_cases hg : g = f
            · subst hg; simp
            · simp [hg]
          rw [hins, Finset.card_insert_of_not_mem (Finset.not_mem_erase f _)]
        simp only [List.toFinset_cons, hY, List.length_cons]
        omega

/-! ### The claims -/

/-- C1 counterexample: for start 2024-03-01 and end 2024-03-02 (end strictly
after start, `end − start` = 1 day, so the claim's nights = 1) the code
computes `days = 2` and states total 12800, while the claim's formula
`4800 + 3200×1 + 800×1` gives 8800. -/
theorem demoTotal_ne_claim_formula :
    demoDays? "2024-03-01" "2024-03-02" = some 2 ∧
    demoStatedTotal? "2024-03-01" "2024-03-02" = some 12800 ∧
    (4800 + 3200 * 1 + 800 * 1 : ℤ) ≠ 12800 :=
  ⟨by decide, by decide, by decide⟩

/-- C1 amended: for every trip request whose end date is strictly after its
start date, demo-mode plan_trip returns status success with a non-empty
itinerary body, and the stated total equals
`4800 + 3200×days + 800×days` with `days = (end − start) in days + 1`
(the code's inclusive day count, not `max(end − start, 1)`). -/
theorem demoPlanTrip_success_total (source dest startS endS : String)
    (b : Option ℚ) (y₁ y₂ : ℕ × ℕ × ℕ)
    (h1 : parseYMD startS = some y₁) (h2 : parseYMD endS = some y₂)
    (horder : daysFromCivil y₁.1 y₁.2.1 y₁.2.2 <
      daysFromCivil y₂.1 y₂.2.1 y₂.2.2) :
    ∃ r : PlanResult, demoPlanTrip source dest startS endS b = Except.ok r ∧
      r.status = Status.success ∧ r.provider = "demo" ∧ r.itinerary ≠ "" ∧
      demoStatedTotal? startS endS =
        some (4800 +
          3200 * ((daysFromCivil y₂.1 y₂.2.1 y₂.2.2 : ℤ) -
            (daysFromCivil y₁.1 y₁.2.1 y₁.2.2 : ℤ) + 1) +
          800 * ((daysFromCivil y₂.1 y₂.2.1 y₂.2.2 : ℤ) -
            (daysFromCivil y₁.1 y₁.2.1 y₁.2.2 : ℤ) + 1)) := by
  refine ⟨{ status := Status.success, provider := "demo",
            itinerary := demoItinerary source dest
              ((daysFromCivil y₂.1 y₂.2.1 y₂.2.2 : ℤ) -
                (daysFromCivil y₁.1 y₁.2.1 y₁.2.2 : ℤ) + 1) },
      ?_, rfl, rfl, ?_, ?_⟩
  · simp [demoPlanTrip, demoDays?, dateOrdinal?, h1, h2]
  · unfold demoItinerary
    exact append_ne_empty _ "\n" (by decide)
  · simp [demoStatedTotal?, demoDays?, dateOrdinal?, h1, h2, demoTotal]

theorem demoPlanTrip_success_total_witness :
    parseYMD "2024-03-01" = some (2024, 3, 1) ∧
    parseYMD "2024-03-04" = some (2024, 3, 4) ∧
    daysFromCivil 2024 3 1 < daysFromCivil 2024 3 4 ∧
    ∃ r : PlanResult,
      demoPlanTrip "Delhi" "Goa" "2024-03-01" "2024-03-04" none =
        Except.ok r ∧
      r.status = Status.success ∧ r.provider = "demo" ∧ r.itinerary ≠ "" ∧
      demoStatedTotal? "2024-03-01" "2024-03-04" =
        some (4800 +
          3200 * ((daysFromCivil 2024 3 4 : ℤ) - (daysFromCivil 2024 3 1 : ℤ) + 1) +
          800 * ((daysFromCivil 2024 3 4 : ℤ) - (daysFromCivil 2024 3 1 : ℤ) + 1)) :=
  ⟨rfl, rfl, by decide,
    demoPlanTrip_success_total "Delhi" "Goa" "2024-03-01" "2024-03-04" none
      (2024, 3, 1) (2024, 3, 4) rfl rfl (by decide)⟩

/-- C2 counterexample: on the Goa scenario input, Hotel Search returns the
4.5-rated, ₹3200 hotel even though the spec's filter predicate (min_rating
4.0, max_price 3000) excludes it; the result list is not empty. -/
theorem hotelSearch_goa_not_filtered :
    (hotelSearch "\x7b\"city\": \"Goa\", \"min_rating\": 4.0, \"max_price\": 3000\x7d").hotels =
      [{ name := "Sea View Resort", rating := 4.5, price_per_night := 3200,
         amenities := ["Pool", "WiFi"] }] ∧
    specHotelFilter
      (hotelSearch "\x7b\"city\": \"Goa\", \"min_rating\": 4.0, \"max_price\": 3000\x7d").hotels
      (some 4) (some 3000) = [] := by
  constructor
  · rfl
  · norm_num [specHotelFilter, hotelSearch, List.filter_cons]

/-- C2 amended: Hotel Search ignores its input entirely and always returns
the fixed single-hotel success payload. -/
theorem hotelSearch_ignores_input (input : String) :
    hotelSearch input =
      { status := "success",
        hotels := [{ name := "Sea View Resort", rating := 4.5,
                     price_per_night := 3200, amenities := ["Pool", "WiFi"] }] } :=
  rfl

/-- C3 counterexample: a malformed start date makes demo-mode `plan_trip`
raise `ValueError` out of `strptime`, which propagates to the caller
instead of being converted to an error-status result. -/
theorem planTrip_malformed_date_raises :
    planTripDemo "Delhi" "Goa" "not-a-date" "2024-03-04" none none =
      Except.error "ValueError: time data does not match format %Y-%m-%d" :=
  rfl

/-- C3 amended: demo-mode `plan_trip` returns a result object (with status
success) whenever both date strings parse; only date-parsing failures
escape as exceptions, because the `strptime` calls sit outside any `try`. -/
theorem planTrip_ok_of_wellformed_dates (source dest startS endS : String)
    (b : Option ℚ) (p : Option String) (y₁ y₂ : ℕ × ℕ × ℕ)
    (h1 : parseYMD startS = some y₁) (h2 : parseYMD endS = some y₂) :
    ∃ r : PlanResult, planTripDemo source dest startS endS b p = Except.ok r ∧
      r.status = Status.success := by
  refine ⟨{ status := Status.success, provider := "demo",
            itinerary := demoItinerary source dest
              ((daysFromCivil y₂.1 y₂.2.1 y₂.2.2 : ℤ) -
                (daysFromCivil y₁.1 y₁.2.1 y₁.2.2 : ℤ) + 1) }, ?_, rfl⟩
  simp [planTripDemo, demoPlanTrip, demoDays?, dateOrdinal?, h1, h2]

theorem planTrip_ok_of_wellformed_dates_witness :
    parseYMD "2024-03-01" = some (2024, 3, 1) ∧
    parseYMD "2024-03-04" = some (2024, 3, 4) ∧
    ∃ r : PlanResult,
      planTripDemo "Delhi" "Goa" "2024-03-01" "2024-03-04" none none =
        Except.ok r ∧ r.status = Status.success :=
  ⟨rfl, rfl,
    planTrip_ok_of_wellformed_dates "Delhi" "Goa" "2024-03-01" "2024-03-04"
      none none (2024, 3, 1) (2024, 3, 4) rfl rfl⟩

/-- C4 counterexample: an object containing none of the four known keys is
wrapped into a singleton list, not turned into an empty collection. -/
theorem loadNormalize_unknown_obj_nonempty :
    loadNormalize (Json.obj [("foo", Json.num 1)]) =
      Json.arr [Json.obj [("foo", Json.num 1)]] ∧
    Json.isEmptyArr (loadNormalize (Json.obj [("foo", Json.num 1)])) = false :=
  ⟨rfl, rfl⟩

/-- C4 amended: a bare array is returned as is; an object returns the value
of the first present key among flights/hotels/places/data; an object with
none of those keys yields the singleton list wrapping the object; non-array
non-object values yield an empty collection. -/
theorem loadNormalize_shapes :
    (∀ elems, loadNormalize (Json.arr elems) = Json.arr elems) ∧
    (∀ fields v, Json.lookup fields "flights" = some v →
      loadNormalize (Json.obj fields) = v) ∧
    (∀ fields v, Json.lookup fields "flights" = none →
      Json.lookup fields "hotels" = some v →
      loadNormalize (Json.obj fields) = v) ∧
    (∀ fields v, Json.lookup fields "flights" = none →
      Json.lookup fields "hotels" = none →
      Json.lookup fields "places" = some v →
      loadNormalize (Json.obj fields) = v) ∧
    (∀ fields v, Json.lookup fields "flights" = none →
      Json.lookup fields "hotels" = none →
      Json.lookup fields "places" = none →
      Json.lookup fields "data" = some v →
      loadNormalize (Json.obj fields) = v) ∧
    (∀ fields, Json.lookup fields "flights" = none →
      Json.lookup fields "hotels" = none →
      Json.lookup fields "places" = none →
      Json.lookup fields "data" = none →
      loadNormalize (Json.obj fields) = Json.arr [Json.obj fields]) ∧
    (∀ s, loadNormalize (Json.str s) = Json.arr []) ∧
    (∀ n, loadNormalize (Json.num n) = Json.arr []) ∧
    (∀ b, loadNormalize (Json.bool b) = Json.arr []) ∧
    loadNormalize Json.null = Json.arr [] := by
  refine ⟨fun elems => rfl, ?_, ?_, ?_, ?_, ?_, fun s => rfl, fun n => rfl,
    fun b => rfl, rfl⟩
  · intro fields v h
    simp [loadNormalize, firstDataKey, h]
  · intro fields v h1 h2
    simp [loadNormalize, firstDataKey, h1, h2]
  · intro fields v h1 h2 h3
    simp [loadNormalize, firstDataKey, h1, h2, h3]
  · intro fields v h1 h2 h3 h4
    simp [loadNormalize, firstDataKey, h1, h2, h3, h4]
  · intro fields h1 h2 h3 h4
    simp [loadNormalize, firstDataKey, h1, h2, h3, h4]

theorem loadNormalize_shapes_witness :
    Json.lookup [("flights", Json.num 3)] "flights" = some (Json.num 3) ∧
    loadNormalize (Json.obj [("flights", Json.num 3)]) = Json.num 3 :=
  ⟨rfl, loadNormalize_shapes.2.1 [("flights", Json.num 3)] (Json.num 3) rfl⟩

/-- C5 counterexample: a record whose `source` field carries leading
whitespace is excluded by the code, although the claim's both-sides-trimmed
comparison matches it. -/
theorem filterFlights_untrimmed_record_excluded :
    filterFlights [spacedFlight] "Delhi" "Goa" = [] ∧
    specFlightMatch spacedFlight "Delhi" "Goa" = true := by
  constructor
  · rfl
  · rfl

/-- C5 amended: a record matches iff its lowercased (untrimmed) city fields
equal the lowercased-and-trimmed query fields; when the record's own city
fields carry no surrounding whitespace this coincides with the claim's
both-sides-trimmed comparison. -/
theorem filterFlights_match_spec (flights : List FlightRecord)
    (source destination : String) (f : FlightRecord)
    (hs : pyStrip (pyLower (f.source.getD "")) = pyLower (f.source.getD ""))
    (hd : pyStrip (pyLower (f.destination.getD "")) =
      pyLower (f.destination.getD "")) :
    (f ∈ filterFlights flights source destination ↔
      f ∈ flights ∧
        pyLower (f.source.getD "") = pyStrip (pyLower source) ∧
        pyLower (f.destination.getD "") = pyStrip (pyLower destination)) ∧
    (specFlightMatch f source destination = true ↔
      pyLower (f.source.getD "") = pyStrip (pyLower source) ∧
        pyLower (f.destination.getD "") = pyStrip (pyLower destination)) := by
  constructor
  · simp [filterFlights, List.mem_filter]
  · simp [specFlightMatch, hs, hd]

theorem filterFlights_match_spec_witness :
    sampleFlight ∈ filterFlights [sampleFlight] " delhi " "GOA" :=
  ((filterFlights_match_spec [sampleFlight] " delhi " "GOA" sampleFlight
      rfl rfl).1).mpr ⟨List.mem_singleton.mpr rfl, rfl, rfl⟩

/-- C6: sorting by price/duration is non-decreasing in the respective key,
is a permutation of the input, and is stable. -/
theorem sortFlights_sorted_stable (l : List FlightRecord) :
    (sortFlights l "price").Perm l ∧
    (sortFlights l "price").Pairwise (fun a b => priceKey a ≤ priceKey b) ∧
    (∀ k, (sortFlights l "price").filter (fun f => priceKey f == k) =
      l.filter (fun f => priceKey f == k)) ∧
    (sortFlights l "duration").Perm l ∧
    (sortFlights l "duration").Pairwise (fun a b => durationKey a ≤ durationKey b) ∧
    (∀ k, (sortFlights l "duration").filter (fun f => durationKey f == k) =
      l.filter (fun f => durationKey f == k)) ∧
    (sortFlights l "price").Pairwise
      (fun a b => ∀ p q, a.price = some p → b.price = some q → p ≤ q) := by
  have hp : sortFlights l "price" = stableSortBy priceKey l := rfl
  have hd : sortFlights l "duration" = stableSortBy durationKey l := rfl
  refine ⟨?_, ?_, ?_, ?_, ?_, ?_, ?_⟩
  · rw [hp]; exact perm_stableSortBy priceKey l
  · rw [hp]; exact sorted_stableSortBy priceKey l
  · intro k; rw [hp]; exact filter_stableSortBy priceKey l k
  · rw [hd]; exact perm_stableSortBy durationKey l
  · rw [hd]; exact sorted_stableSortBy durationKey l
  · intro k; rw [hd]; exact filter_stableSortBy durationKey l k
  · rw [hp]
    refine (sorted_stableSortBy priceKey l).imp ?_
    intro a b hab p q hpa hqb
    simpa [priceKey, hpa, hqb] using hab

/-- C7 counterexample: with a window whose average high is exactly 30°C the
code gives the moderate advice, while the claim requires the hot advice at
`≥ 30`. -/
theorem clothingAdvice_at_30_moderate :
    avgTemp [(30 : ℚ)] 1 = 30 ∧ clothingAdvice [(30 : ℚ)] 1 = Advice.moderate := by
  have h : avgTemp [(30 : ℚ)] 1 = 30 := by norm_num [avgTemp]
  exact ⟨h, by norm_num [clothingAdvice, h]⟩

/-- C7 amended: over a window of `days ≥ 1` forecast entries the clothing
advice is hot exactly when the average high is strictly above 30°C, cold
exactly when it is below 20°C, moderate otherwise; rain gear is advised
exactly when some day in the window has precipitation above 5mm. -/
theorem weatherAdvice_spec (tempMax precipitation : List ℚ) (days : ℕ)
    (hdays : 1 ≤ days) (hwin : days ≤ tempMax.length) :
    (clothingAdvice tempMax days = Advice.hot ↔ 30 < avgTemp tempMax days) ∧
    (clothingAdvice tempMax days = Advice.cold ↔ avgTemp tempMax days < 20) ∧
    (clothingAdvice tempMax days = Advice.moderate ↔
      20 ≤ avgTemp tempMax days ∧ avgTemp tempMax days ≤ 30) ∧
    (rainGear precipitation days = true ↔
      ∃ p ∈ precipitation.take days, 5 < p) := by
  refine ⟨?_, ?_, ?_, ?_⟩
  · unfold clothingAdvice
    split
    · rename_i h; simpa using h
    · split
      · rename_i h1 h2; simp; linarith
      · rename_i h1 h2; simp; linarith
  · unfold clothingAdvice
    split
    · rename_i h; simp; linarith
    · split
      · rename_i h1 h2; simpa using h2
      · rename_i h1 h2; simp; linarith
  · unfold clothingAdvice
    split
    · rename_i h; simp; intro h'; linarith
    · split
      · rename_i h1 h2; simp; intro h'; linarith
      · rename_i h1 h2; simp; constructor <;> linarith
  · simp [rainGear]

theorem weatherAdvice_spec_witness :
    (1 : ℕ) ≤ 1 ∧ 1 ≤ [(35 : ℚ)].length ∧
    clothingAdvice [(35 : ℚ)] 1 = Advice.hot ∧ rainGear [(6 : ℚ)] 1 = true := by
  refine ⟨le_refl 1, by simp, ?_, ?_⟩
  · exact (weatherAdvice_spec [(35 : ℚ)] [(6 : ℚ)] 1 (le_refl 1) (by simp)).1.mpr
      (by norm_num [avgTemp])
  · exact (weatherAdvice_spec [(35 : ℚ)] [(6 : ℚ)] 1 (le_refl 1) (by simp)).2.2.2.mpr
      ⟨6, by norm_num⟩

/-- C8: a request for more than 7 days sends `forecast_days = 7` upstream,
and the formatted forecast never has more day entries than the (≤ 7)
returned dates, hence at most 7. -/
theorem weather_days_clamped (days : ℤ) (hdays : 7 < days) :
    forecastDaysParam days = 7 ∧
    (∀ nDates : ℕ, formatDayCount days nDates ≤ nDates) ∧
    (∀ nDates : ℕ, nDates ≤ 7 → formatDayCount days nDates ≤ 7) := by
  refine ⟨?_, ?_, ?_⟩
  · simp only [forecastDaysParam]; omega
  · intro n; simp only [formatDayCount]; omega
  · intro n hn; simp only [formatDayCount]; omega

theorem weather_days_clamped_witness :
    (7 : ℤ) < 10 ∧ forecastDaysParam 10 = 7 ∧ formatDayCount 10 7 ≤ 7 :=
  ⟨by decide, (weather_days_clamped 10 (by decide)).1,
    (weather_days_clamped 10 (by decide)).2.2 7 (by decide)⟩

/-- C9 counterexample: eleven distinct filenames followed by a repeat of the
first force an LRU eviction (maxsize=10) and a second disk read of the same
file, with no intervening clear_cache. -/
theorem lru_cache_rereads_after_eviction :
    ((runLoads initCache
        ["f0", "f1", "f2", "f3", "f4", "f5", "f6", "f7", "f8", "f9", "f10",
         "f0"]).log.count "f0") = 2 := by
  decide

/-- C9 amended: as long as a call sequence touches at most 10 distinct
filenames (the `lru_cache(maxsize=10)` capacity), each filename is read
from disk at most once; beyond 10 distinct filenames the least-recently-used
entry is evicted and may be re-read, so the cache is not invalidated only by
`clear_cache`. -/
theorem loadJson_reads_once_within_capacity (fs : List String)
    (h : fs.dedup.length ≤ 10) (f : String) :
    (runLoads initCache fs).log.count f ≤ 1 := by
  have hinv : CacheInv (runLoads initCache fs) := by
    apply runLoads_inv fs initCache
    · exact ⟨List.nodup_nil, fun g => by simp [initCache], fun g => by simp [initCache]⟩
    · have hcard : fs.toFinset.card = fs.dedup.length := List.card_toFinset fs
      simp only [initCache, List.toFinset_nil, Finset.sdiff_empty, List.length_nil]
      omega
  exact hinv.2.1 f

theorem loadJson_reads_once_witness :
    (["a", "b", "a"] : List String).dedup.length ≤ 10 ∧
    (runLoads initCache ["a", "b", "a"]).log.count "a" ≤ 1 :=
  ⟨by decide, loadJson_reads_once_within_capacity ["a", "b", "a"] (by decide) "a"⟩

/-- C10: demo-mode plan_trip depends only on the four route/date
parameters; budget and preferences never influence the result. -/
theorem planTripDemo_ignores_budget_preferences
    (source dest startS endS : String) (b₁ b₂ : Option ℚ)
    (p₁ p₂ : Option String) :
    planTripDemo source dest startS endS b₁ p₁ =
      planTripDemo source dest startS endS b₂ p₂ :=
  rfl

end TravelAgent
